import Mathlib

/-!
Verification of the musicmanrs Discord bot command handlers
(src/musicmanrs/src/main.rs) against its natural-language specification.

The handlers (`join`, `leave`, `play`, `skip`, `now_playing`) are embedded
as pure functions.  Results of calls into the two external collaborators
(the songbird voice-session library and the lavalink-rs audio-node client)
are supplied through environment records, since their outcomes depend on
the outside world.  The observable per-guild state is the songbird
handler map (which guilds have a voice `Call`) and the lavalink node map
(per-guild playback state).  Each handler returns an `Outcome` recording
the final state, the replies sent to the channel, the stderr logs, the
list of external calls issued in order, and whether the Rust function
returned `Ok`, returned `Err` (an error propagated with `?`), or panicked
(an `unwrap` on `None`).
-/

abbrev GuildId := Nat
abbrev ChannelId := Nat

/-- Track metadata, mirroring lavalink's `Info` as used by main.rs (only the
title is read). -/
structure TrackInfo where
  title : String
deriving DecidableEq

/-- A lavalink track; `info` is an `Option` in lavalink-rs and main.rs
unwraps it when formatting replies. -/
structure Track where
  info : Option TrackInfo
deriving DecidableEq

/-- Modelled from the spec: the per-guild audio-node session state kept by
the external lavalink client (collaborator, not repository code): the
currently playing track and the FIFO queue of pending tracks. -/
structure Node where
  now_playing : Option Track
  queue : List Track
deriving DecidableEq

/-- The observable per-process state: which guilds have a songbird voice
handler (`manager.get(guild_id).is_some()`), and the lavalink node map. -/
structure BotState where
  handlers : List GuildId
  nodes : List (GuildId × Node)
deriving DecidableEq

def emptyNode : Node := { now_playing := none, queue := [] }

def nodesGet (m : List (GuildId × Node)) (g : GuildId) : Option Node :=
  (m.find? (fun p => p.1 == g)).map (fun p => p.2)

/-- Keyed insert into the node map: replaces any existing entry for the
guild (the lavalink node map is keyed by guild id). -/
def nodesInsert (m : List (GuildId × Node)) (g : GuildId) (n : Node) :
    List (GuildId × Node) :=
  (g, n) :: m.filter (fun p => p.1 != g)

def nodesRemove (m : List (GuildId × Node)) (g : GuildId) :
    List (GuildId × Node) :=
  m.filter (fun p => p.1 != g)

/-- Songbird keeps at most one `Call` per guild. -/
def handlersAdd (hs : List GuildId) (g : GuildId) : List GuildId :=
  if hs.contains g then hs else g :: hs

def handlersRemove (hs : List GuildId) (g : GuildId) : List GuildId :=
  hs.filter (fun x => x != g)

def hasHandler (s : BotState) (g : GuildId) : Bool :=
  s.handlers.contains g

/-- External calls a handler issues, in order. -/
inductive ExtCall where
  | joinGateway (g : GuildId) (c : ChannelId)
  | createSession (g : GuildId)
  | removeCall (g : GuildId)
  | destroySession (g : GuildId)
  | searchTracks (q : String)
  | playQueue (g : GuildId) (t : Track)
  | skipCall (g : GuildId)
deriving DecidableEq

/-- How the Rust command function ended: returned `Ok(())`, returned an
`Err` propagated with `?`, or panicked on an `unwrap`. -/
inductive CmdResult where
  | ok
  | err (e : String)
  | panicked (m : String)
deriving DecidableEq

def isPanic : CmdResult → Bool
  | .panicked _ => true
  | _ => false

structure Outcome where
  state : BotState
  replies : List String
  logs : List String
  calls : List ExtCall
  result : CmdResult
deriving DecidableEq

/-- Environment for `join`: the cache lookup `msg.guild(&ctx.cache)`
(collapsed to the guild id; `none` is a cache miss / DM), the invoking
user's current voice channel (`guild.voice_states.get(author).and_then
(channel_id)`), and the results of the two external calls. -/
structure JoinEnv where
  msgGuild : Option GuildId
  userVoiceChannel : Option ChannelId
  attachResult : Except String Unit
  createResult : Except String Unit

/-- Embedding of `join` (main.rs lines 104-137).  `msg.guild(..).unwrap()`
panics on a cache miss; no voice channel replies and returns; then
`join_gateway` is called unconditionally; on success
`create_session_with_songbird(..).await?` propagates its error. -/
def join (s : BotState) (env : JoinEnv) : Outcome :=
  match env.msgGuild with
  | none =>
    { state := s, replies := [], logs := [], calls := [],
      result := .panicked "called Option::unwrap on a None value" }
  | some g =>
    match env.userVoiceChannel with
    | none =>
      { state := s, replies := ["Join a voice channel first."], logs := [],
        calls := [], result := .ok }
    | some connect_to =>
      match env.attachResult with
      | .ok _ =>
        let s1 : BotState := { s with handlers := handlersAdd s.handlers g }
        match env.createResult with
        | .ok _ =>
          let s2 : BotState := { s1 with nodes := nodesInsert s1.nodes g emptyNode }
          { state := s2,
            replies := ["Joined " ++ toString connect_to],
            logs := [],
            calls := [.joinGateway g connect_to, .createSession g],
            result := .ok }
        | .error e =>
          { state := s1, replies := [], logs := [],
            calls := [.joinGateway g connect_to, .createSession g],
            result := .err e }
      | .error _ =>
        { state := s, replies := ["Error joining " ++ toString connect_to],
          logs := [], calls := [.joinGateway g connect_to], result := .ok }

/-- Environment for `leave`: the cache lookup and the results of
`manager.remove` and `lava_client.destroy`. -/
structure LeaveEnv where
  msgGuild : Option GuildId
  removeResult : Except String Unit
  destroyResult : Except String Unit

/-- Embedding of `leave` (main.rs lines 140-167).  If a songbird handler
exists: first `manager.remove(guild_id)` (voice teardown; an error is
reported in a reply and does not stop the command), then
`lava_client.destroy(guild_id).await?` (audio-node teardown; an error is
propagated with `?`, skipping the final reply), then "Left voice channel".
Without a handler, replies "Not in a voice channel". -/
def leave (s : BotState) (env : LeaveEnv) : Outcome :=
  match env.msgGuild with
  | none =>
    { state := s, replies := [], logs := [], calls := [],
      result := .panicked "called Option::unwrap on a None value" }
  | some g =>
    if hasHandler s g then
      let step1 : BotState × List String :=
        match env.removeResult with
        | .ok _ => ({ s with handlers := handlersRemove s.handlers g }, [])
        | .error e => (s, ["Failed: " ++ e])
      match env.destroyResult with
      | .ok _ =>
        { state := { step1.1 with nodes := nodesRemove step1.1.nodes g },
          replies := step1.2 ++ ["Left voice channel"],
          logs := [],
          calls := [.removeCall g, .destroySession g],
          result := .ok }
      | .error e =>
        { state := step1.1, replies := step1.2, logs := [],
          calls := [.removeCall g, .destroySession g],
          result := .err e }
    else
      { state := s, replies := ["Not in a voice channel"], logs := [],
        calls := [], result := .ok }

/-- Environment for `play`: `ctx.cache.guild_channel(msg.channel_id)`
collapsed to the guild id (`none` means the channel is unknown to the
cache), the result of `auto_search_tracks`, and the result of
`play(..).queue()`. -/
structure PlayEnv where
  cacheChannelGuild : Option GuildId
  searchResult : Except String (List Track)
  playQueueResult : Except String Unit

/-- Modelled from the spec: effect of the external lavalink `queue()` call
on the guild's node — plays the track at once when idle, otherwise appends
it to the queue tail (FIFO, insertion order). -/
def queueTrack (n : Node) (t : Track) : Node :=
  match n.now_playing with
  | none => { n with now_playing := some t }
  | some _ => { n with queue := n.queue ++ [t] }

def getNodeOrEmpty (s : BotState) (g : GuildId) : Node :=
  (nodesGet s.nodes g).getD emptyNode

/-- Embedding of `play` (main.rs lines 169-230).  Unknown channel replies
"Error finding channel info"; no songbird handler replies the use-join
hint; `auto_search_tracks(..).await?` propagates its error; empty results
reply "Could not find any video of the search query."; a failing
`play(..).queue()` is only logged with `eprintln!` and the command returns
`Ok` with no reply; on success the reply unwraps `tracks[0].info`. -/
def play (s : BotState) (query : String) (env : PlayEnv) : Outcome :=
  match env.cacheChannelGuild with
  | none =>
    { state := s, replies := ["Error finding channel info"], logs := [],
      calls := [], result := .ok }
  | some g =>
    if hasHandler s g then
      match env.searchResult with
      | .error e =>
        { state := s, replies := [], logs := [],
          calls := [.searchTracks query], result := .err e }
      | .ok tracks =>
        match tracks with
        | [] =>
          { state := s,
            replies := ["Could not find any video of the search query."],
            logs := [], calls := [.searchTracks query], result := .ok }
        | t :: _ =>
          match env.playQueueResult with
          | .error why =>
            { state := s, replies := [], logs := [why],
              calls := [.searchTracks query, .playQueue g t],
              result := .ok }
          | .ok _ =>
            let s1 : BotState :=
              { s with nodes := nodesInsert s.nodes g (queueTrack (getNodeOrEmpty s g) t) }
            match t.info with
            | none =>
              { state := s1, replies := [], logs := [],
                calls := [.searchTracks query, .playQueue g t],
                result := .panicked "called Option::unwrap on a None value" }
            | some i =>
              { state := s1,
                replies := ["Added to queue: " ++ i.title],
                logs := [],
                calls := [.searchTracks query, .playQueue g t],
                result := .ok }
    else
      { state := s,
        replies := ["Use `!join` first, to connect the bot to your current voice channel."],
        logs := [], calls := [], result := .ok }

/-- Environment for `now_playing` and `skip`: `msg.guild_id`
(`none` in a direct message; main.rs unwraps it). -/
structure GuildEnv where
  msgGuildId : Option GuildId
deriving DecidableEq

/-- Embedding of `now_playing` (main.rs lines 232-258).  `msg.guild_id
.unwrap()` panics in a DM; otherwise reads the lavalink node map and
replies with the now-playing title (unwrapping its `info`) or "Nothing is
playing at the moment." -/
def now_playing (s : BotState) (env : GuildEnv) : Outcome :=
  match env.msgGuildId with
  | none =>
    { state := s, replies := [], logs := [], calls := [],
      result := .panicked "called Option::unwrap on a None value" }
  | some g =>
    match nodesGet s.nodes g with
    | some node =>
      match node.now_playing with
      | some t =>
        match t.info with
        | none =>
          { state := s, replies := [], logs := [], calls := [],
            result := .panicked "called Option::unwrap on a None value" }
        | some i =>
          { state := s, replies := ["Now Playing: " ++ i.title], logs := [],
            calls := [], result := .ok }
      | none =>
        { state := s, replies := ["Nothing is playing at the moment."],
          logs := [], calls := [], result := .ok }
    | none =>
      { state := s, replies := ["Nothing is playing at the moment."],
        logs := [], calls := [], result := .ok }

/-- Modelled from the spec: the external lavalink `skip` advances the
guild's node — returns the track that was playing and promotes the queue
head, or `none` when nothing was playing or no node exists. -/
def skipNode (s : BotState) (g : GuildId) : Option Track × BotState :=
  match nodesGet s.nodes g with
  | none => (none, s)
  | some n =>
    match n.now_playing with
    | none => (none, s)
    | some t =>
      let n1 : Node := { now_playing := n.queue.head?, queue := n.queue.tail }
      (some t, { s with nodes := nodesInsert s.nodes g n1 })

/-- Embedding of `skip` (main.rs lines 260-277).  `msg.guild_id.unwrap()`
panics in a DM; otherwise asks lavalink to skip, replying with the skipped
title (unwrapping its `info`) or "Nothing to skip." -/
def skip (s : BotState) (env : GuildEnv) : Outcome :=
  match env.msgGuildId with
  | none =>
    { state := s, replies := [], logs := [], calls := [],
      result := .panicked "called Option::unwrap on a None value" }
  | some g =>
    match skipNode s g with
    | (some t, s1) =>
      match t.info with
      | none =>
        { state := s1, replies := [], logs := [], calls := [.skipCall g],
          result := .panicked "called Option::unwrap on a None value" }
      | some i =>
        { state := s1, replies := ["Skipped: " ++ i.title], logs := [],
          calls := [.skipCall g], result := .ok }
    | (none, s1) =>
      { state := s1, replies := ["Nothing to skip."], logs := [],
        calls := [.skipCall g], result := .ok }

/-- A track whose `info` is present, as lavalink search results provide. -/
def trackWF (t : Track) : Bool := t.info.isSome

def nodeWF (n : Node) : Bool :=
  (match n.now_playing with
   | some t => trackWF t
   | none => true) && n.queue.all trackWF

def stateWF (s : BotState) : Bool :=
  s.nodes.all (fun p => nodeWF p.2)

/-! Concrete inputs used by counterexamples and witnesses. -/

def trackA : Track := { info := some { title := "song A" } }

/-- Fresh state: no guild connected. -/
def s0 : BotState := { handlers := [], nodes := [] }

/-- Guild 1 connected and idle: songbird handler present, lavalink node
present with nothing playing. -/
def s1 : BotState := { handlers := [1], nodes := [(1, emptyNode)] }

def jenvOk : JoinEnv :=
  { msgGuild := some 1, userVoiceChannel := some 5,
    attachResult := .ok (), createResult := .ok () }

def jenvCreateFail : JoinEnv :=
  { msgGuild := some 1, userVoiceChannel := some 5,
    attachResult := .ok (), createResult := .error "node down" }

/-- Join environment for a cache miss: `msg.guild(&ctx.cache)` is `None`. -/
def jenvNoGuild : JoinEnv :=
  { msgGuild := none, userVoiceChannel := some 5,
    attachResult := .ok (), createResult := .ok () }

def lenvOk : LeaveEnv :=
  { msgGuild := some 1, removeResult := .ok (), destroyResult := .ok () }

def lenvDestroyFail : LeaveEnv :=
  { msgGuild := some 1, removeResult := .ok (),
    destroyResult := .error "node down" }

def penvOk : PlayEnv :=
  { cacheChannelGuild := some 1, searchResult := .ok [trackA],
    playQueueResult := .ok () }

def penvQueueFail : PlayEnv :=
  { cacheChannelGuild := some 1, searchResult := .ok [trackA],
    playQueueResult := .error "connection refused" }

def penvQueueFail2 : PlayEnv :=
  { cacheChannelGuild := some 1, searchResult := .ok [trackA],
    playQueueResult := .error "boom" }

/-- Node currently playing track A with an empty queue. -/
def nodeA : Node := { now_playing := some trackA, queue := [] }

/-- Guilds 1 and 2 connected, guild 1 playing track A. -/
def s2 : BotState := { handlers := [1, 2], nodes := [(1, nodeA)] }

/-! Helper lemmas about the keyed maps. -/

theorem filter_bne_of_contains_false (hs : List GuildId) (g : GuildId)
    (h : hs.contains g = false) : hs.filter (fun x => x != g) = hs := by
  rw [List.filter_eq_self]
  intro a ha
  have hg : g ∉ hs := by simpa using h
  have : a ≠ g := fun e => hg (e ▸ ha)
  simpa [bne] using this

theorem filter_keyne_of_find_none (m : List (GuildId × Node)) (g : GuildId)
    (h : m.find? (fun p => p.1 == g) = none) :
    m.filter (fun p => p.1 != g) = m := by
  rw [List.filter_eq_self]
  rw [List.find?_eq_none] at h
  intro a ha
  have := h a ha
  simpa [bne] using this

theorem nodesGet_insert (m : List (GuildId × Node)) (g : GuildId) (n : Node) :
    nodesGet (nodesInsert m g n) g = some n := by
  simp [nodesGet, nodesInsert, List.find?]

theorem contains_handlersAdd (hs : List GuildId) (g : GuildId) :
    (handlersAdd hs g).contains g = true := by
  unfold handlersAdd
  split
  · assumption
  · simp [List.contains_cons]

theorem filter_key_eq_after_filter_ne (m : List (GuildId × Node)) (g : GuildId) :
    (m.filter (fun p => p.1 != g)).filter (fun p => p.1 == g) = [] := by
  rw [List.filter_filter]
  rw [List.filter_eq_nil_iff]
  intro a _
  cases hb : (a.1 == g) <;> simp [bne, hb]

theorem mem_handlersAdd (hs : List GuildId) (g : GuildId) :
    g ∈ handlersAdd hs g := by
  unfold handlersAdd
  by_cases h : hs.contains g = true
  · rw [if_pos h]
    simpa using h
  · rw [if_neg h]
    exact List.mem_cons_self g hs

theorem handlersAdd_of_contains (hs : List GuildId) (g : GuildId)
    (h : hs.contains g = true) : handlersAdd hs g = hs := by
  unfold handlersAdd
  rw [if_pos h]

theorem nodesGet_remove (m : List (GuildId × Node)) (g : GuildId) :
    nodesGet (nodesRemove m g) g = none := by
  rw [nodesGet, Option.map_eq_none', List.find?_eq_none]
  intro x hx
  have := (List.mem_filter.mp hx).2
  cases hb : (x.1 == g)
  · simp [hb]
  · rw [bne, hb] at this
    simp at this

theorem nodeWF_of_nodesGet (s : BotState) (g : GuildId) (n : Node)
    (hwf : stateWF s = true) (h : nodesGet s.nodes g = some n) :
    nodeWF n = true := by
  rw [nodesGet] at h
  rcases Option.map_eq_some'.mp h with ⟨p, hfind, hp2⟩
  have hmem := List.mem_of_find?_eq_some hfind
  rw [stateWF, List.all_eq_true] at hwf
  have := hwf p hmem
  rw [← hp2]
  simpa using this

/-! Claim theorems. -/

/-- Claim C5: for every guild with no active voice session (no songbird
handler), `play` replies that the user must `!join` first, performs no
audio-node call (empty call list, in particular no search and no playback
request), and leaves all state unchanged; the command returns `Ok`. -/
theorem play_disconnected_no_call_no_mutation
    (s : BotState) (q : String) (env : PlayEnv) (g : GuildId)
    (hc : env.cacheChannelGuild = some g) (hh : hasHandler s g = false) :
    (play s q env).replies
      = ["Use `!join` first, to connect the bot to your current voice channel."] ∧
    (play s q env).calls = [] ∧
    (play s q env).state = s ∧
    (play s q env).result = .ok := by
  simp [play, hc, hh]

/-- Witness for C5: concrete disconnected state, guild 1. -/
theorem play_disconnected_no_call_no_mutation_witness :
    (play s0 "song A" penvOk).replies
      = ["Use `!join` first, to connect the bot to your current voice channel."] ∧
    (play s0 "song A" penvOk).calls = [] ∧
    (play s0 "song A" penvOk).state = s0 ∧
    (play s0 "song A" penvOk).result = .ok :=
  play_disconnected_no_call_no_mutation s0 "song A" penvOk 1 rfl rfl

/-- Claim C10: for every guild with no active voice handler, `leave`
replies "Not in a voice channel", performs no voice detach and no
audio-node session destruction (empty call list), and leaves all state
unchanged. -/
theorem leave_no_handler_no_teardown
    (s : BotState) (env : LeaveEnv) (g : GuildId)
    (hl : env.msgGuild = some g) (hh : hasHandler s g = false) :
    (leave s env).replies = ["Not in a voice channel"] ∧
    (leave s env).calls = [] ∧
    (leave s env).state = s ∧
    (leave s env).result = .ok := by
  simp [leave, hl, hh]

/-- Witness for C10: concrete disconnected state, guild 1. -/
theorem leave_no_handler_no_teardown_witness :
    (leave s0 lenvOk).replies = ["Not in a voice channel"] ∧
    (leave s0 lenvOk).calls = [] ∧
    (leave s0 lenvOk).state = s0 ∧
    (leave s0 lenvOk).result = .ok :=
  leave_no_handler_no_teardown s0 lenvOk 1 rfl rfl

/-- Claim C6: for a connected guild, `play` with zero search results
reports "not found" and leaves state unchanged; with a non-empty result
list it requests playback of exactly the first result, and (when the
audio-node call succeeds) the guild's node either starts playing the track
when idle or appends it at the queue tail (FIFO), and the reply is
"Added to queue: <title>". -/
theorem play_connected_takes_first_result
    (s : BotState) (q : String) (env : PlayEnv) (g : GuildId)
    (hc : env.cacheChannelGuild = some g) (hh : hasHandler s g = true) :
    (env.searchResult = .ok [] →
      (play s q env).replies = ["Could not find any video of the search query."] ∧
      (play s q env).state = s ∧ (play s q env).result = .ok) ∧
    (∀ t rest i, env.searchResult = .ok (t :: rest) →
      env.playQueueResult = .ok () → t.info = some i →
      (play s q env).calls = [.searchTracks q, .playQueue g t] ∧
      (play s q env).replies = ["Added to queue: " ++ i.title] ∧
      nodesGet (play s q env).state.nodes g
        = some (queueTrack (getNodeOrEmpty s g) t) ∧
      ((getNodeOrEmpty s g).now_playing = none →
        (queueTrack (getNodeOrEmpty s g) t).now_playing = some t ∧
        (queueTrack (getNodeOrEmpty s g) t).queue = (getNodeOrEmpty s g).queue) ∧
      (∀ t0, (getNodeOrEmpty s g).now_playing = some t0 →
        (queueTrack (getNodeOrEmpty s g) t).queue
          = (getNodeOrEmpty s g).queue ++ [t] ∧
        (queueTrack (getNodeOrEmpty s g) t).now_playing = some t0)) := by
  constructor
  · intro hempty
    simp [play, hc, hh, hempty]
  · intro t rest i hts hq hi
    refine ⟨?_, ?_, ?_, ?_, ?_⟩
    · simp [play, hc, hh, hts, hq, hi]
    · simp [play, hc, hh, hts, hq, hi]
    · simp [play, hc, hh, hts, hq, hi, nodesGet_insert]
    · intro hnp
      simp [queueTrack, hnp]
    · intro t0 hnp
      simp [queueTrack, hnp]

/-- Witness for C6: connected guild 1, search returns one track. -/
theorem play_connected_takes_first_result_witness :
    (play s1 "song A" penvOk).calls
      = [.searchTracks "song A", .playQueue 1 trackA] ∧
    (play s1 "song A" penvOk).replies = ["Added to queue: song A"] ∧
    nodesGet (play s1 "song A" penvOk).state.nodes 1
      = some (queueTrack (getNodeOrEmpty s1 1) trackA) ∧
    ((getNodeOrEmpty s1 1).now_playing = none →
      (queueTrack (getNodeOrEmpty s1 1) trackA).now_playing = some trackA ∧
      (queueTrack (getNodeOrEmpty s1 1) trackA).queue
        = (getNodeOrEmpty s1 1).queue) ∧
    (∀ t0, (getNodeOrEmpty s1 1).now_playing = some t0 →
      (queueTrack (getNodeOrEmpty s1 1) trackA).queue
        = (getNodeOrEmpty s1 1).queue ++ [trackA] ∧
      (queueTrack (getNodeOrEmpty s1 1) trackA).now_playing = some t0) :=
  (play_connected_takes_first_result s1 "song A" penvOk 1 rfl rfl).2
    trackA [] { title := "song A" } rfl rfl rfl

/-- Claim C8: round trip — starting from a guild that is Disconnected
(no songbird handler, no lavalink node, hence no nowPlaying and an empty
queue), a successful `join` followed by a successful `leave` returns the
whole state to exactly the pre-join state. -/
theorem join_leave_round_trip
    (s : BotState) (g : GuildId) (ch : ChannelId)
    (jenv : JoinEnv) (lenv : LeaveEnv)
    (hg : s.handlers.contains g = false)
    (hn : nodesGet s.nodes g = none)
    (hj1 : jenv.msgGuild = some g) (hj2 : jenv.userVoiceChannel = some ch)
    (hj3 : jenv.attachResult = .ok ()) (hj4 : jenv.createResult = .ok ())
    (hl1 : lenv.msgGuild = some g)
    (hl2 : lenv.removeResult = .ok ()) (hl3 : lenv.destroyResult = .ok ()) :
    (leave (join s jenv).state lenv).state = s := by
  have hfind : s.nodes.find? (fun p => p.1 == g) = none := by
    have := hn
    unfold nodesGet at this
    exact Option.map_eq_none'.mp this
  have hg' : g ∉ s.handlers := by simpa using hg
  have hjoin : (join s jenv).state
      = { handlers := g :: s.handlers, nodes := (g, emptyNode) :: s.nodes } := by
    simp [join, hj1, hj2, hj3, hj4, handlersAdd, hg', nodesInsert,
      filter_keyne_of_find_none s.nodes g hfind]
  rw [hjoin]
  have hhas : hasHandler
      ({ handlers := g :: s.handlers, nodes := (g, emptyNode) :: s.nodes } : BotState) g
      = true := by
    simp [hasHandler, List.contains_cons]
  have h1 : handlersRemove (g :: s.handlers) g = s.handlers := by
    unfold handlersRemove
    rw [List.filter_cons]
    simp only [bne_self_eq_false, Bool.false_eq_true, if_false]
    exact filter_bne_of_contains_false s.handlers g hg
  have h2 : nodesRemove ((g, emptyNode) :: s.nodes) g = s.nodes := by
    unfold nodesRemove
    rw [List.filter_cons]
    simp only [bne_self_eq_false, Bool.false_eq_true, if_false]
    exact filter_keyne_of_find_none s.nodes g hfind
  simp [leave, hl1, hl2, hl3, hhas, h1, h2]

/-- Witness for C8: fresh state, guild 1, all external calls succeed. -/
theorem join_leave_round_trip_witness :
    (leave (join s0 jenvOk).state lenvOk).state = s0 :=
  join_leave_round_trip s0 1 5 jenvOk lenvOk rfl rfl rfl rfl rfl rfl rfl rfl rfl

/-- Counterexample to claim C1: with the voice attach succeeding and the
audio-node session creation failing, `join` leaves the songbird voice
handler in place (no rollback to Disconnected) and propagates the error as
the command's result with no reply at all. -/
theorem join_create_failure_cex :
    (join s0 jenvCreateFail).replies = [] ∧
    (join s0 jenvCreateFail).result = .err "node down" ∧
    hasHandler (join s0 jenvCreateFail).state 1 = true := by
  refine ⟨rfl, rfl, rfl⟩

/-- Claim C1 amended: if the voice attach succeeds but the audio-node
session creation fails during `join`, the error is propagated out of the
handler (returned as `Err`) rather than reported in a reply, and the voice
connection is not torn down — the guild keeps its songbird handler and no
lavalink node is created. -/
theorem join_create_failure_no_rollback
    (s : BotState) (env : JoinEnv) (g : GuildId) (ch : ChannelId) (e : String)
    (h1 : env.msgGuild = some g) (h2 : env.userVoiceChannel = some ch)
    (h3 : env.attachResult = .ok ()) (h4 : env.createResult = .error e) :
    (join s env).result = .err e ∧
    (join s env).replies = [] ∧
    hasHandler (join s env).state g = true ∧
    (join s env).state.nodes = s.nodes := by
  refine ⟨?_, ?_, ?_, ?_⟩
  · simp [join, h1, h2, h3, h4]
  · simp [join, h1, h2, h3, h4]
  · simp [join, h1, h2, h3, h4, hasHandler]
    exact mem_handlersAdd _ _
  · simp [join, h1, h2, h3, h4]

/-- Witness for the amended C1 at a state that already holds other guilds. -/
theorem join_create_failure_no_rollback_witness :
    (join s2 jenvCreateFail).result = .err "node down" ∧
    (join s2 jenvCreateFail).replies = [] ∧
    hasHandler (join s2 jenvCreateFail).state 1 = true ∧
    (join s2 jenvCreateFail).state.nodes = s2.nodes :=
  join_create_failure_no_rollback s2 jenvCreateFail 1 5 "node down" rfl rfl rfl rfl

/-- Counterexample to claim C3: from a connected guild, `leave` issues the
voice teardown (`manager.remove`) before the audio-node teardown
(`lava_client.destroy`), and when the audio-node teardown fails the error
is propagated as the command's result with no reply — it is not reported
in a reply, and it does block the completion of the command. -/
theorem leave_destroy_failure_cex :
    (leave s1 lenvDestroyFail).calls = [.removeCall 1, .destroySession 1] ∧
    (leave s1 lenvDestroyFail).replies = [] ∧
    (leave s1 lenvDestroyFail).result = .err "node down" := by
  refine ⟨rfl, rfl, rfl⟩

/-- Claim C3 amended: for a connected guild, `leave` tears down the voice
session first and the audio-node session second; a voice-teardown error is
reported in a reply and does not block the rest of the command, and on
voice-teardown success the handler is removed regardless of the audio-node
outcome; but an audio-node teardown error is propagated as the command's
error without any reply and without the final "Left voice channel"
message; only when the audio-node teardown succeeds does the command
complete with "Left voice channel" and the node removed. -/
theorem leave_connected_teardown
    (s : BotState) (env : LeaveEnv) (g : GuildId)
    (hl : env.msgGuild = some g) (hh : hasHandler s g = true) :
    (leave s env).calls = [.removeCall g, .destroySession g] ∧
    (∀ e, env.removeResult = .error e →
      ("Failed: " ++ e) ∈ (leave s env).replies) ∧
    (env.removeResult = .ok () →
      (leave s env).state.handlers = handlersRemove s.handlers g) ∧
    (env.destroyResult = .ok () →
      (leave s env).result = .ok ∧
      nodesGet (leave s env).state.nodes g = none ∧
      "Left voice channel" ∈ (leave s env).replies) ∧
    (∀ e, env.destroyResult = .error e →
      (leave s env).result = .err e ∧
      (env.removeResult = .ok () → (leave s env).replies = []) ∧
      (∀ e2, env.removeResult = .error e2 →
        (leave s env).replies = ["Failed: " ++ e2])) := by
  refine ⟨?_, ?_, ?_, ?_, ?_⟩
  · cases hr : env.removeResult <;> cases hd : env.destroyResult <;>
      simp [leave, hl, hh, hr, hd]
  · intro e hr
    cases hd : env.destroyResult <;> simp [leave, hl, hh, hr, hd]
  · intro hr
    cases hd : env.destroyResult <;> simp [leave, hl, hh, hr, hd]
  · intro hd
    cases hr : env.removeResult <;>
      simp [leave, hl, hh, hr, hd, nodesGet_remove]
  · intro e hd
    refine ⟨?_, ?_, ?_⟩
    · cases hr : env.removeResult <;> simp [leave, hl, hh, hr, hd]
    · intro hr
      simp [leave, hl, hh, hr, hd]
    · intro e2 hr
      simp [leave, hl, hh, hr, hd]

/-- Witness for the amended C3: a fully successful teardown of guild 1. -/
theorem leave_connected_teardown_witness :
    (leave s1 lenvOk).calls = [.removeCall 1, .destroySession 1] ∧
    ((leave s1 lenvOk).result = .ok ∧
      nodesGet (leave s1 lenvOk).state.nodes 1 = none ∧
      "Left voice channel" ∈ (leave s1 lenvOk).replies) :=
  ⟨(leave_connected_teardown s1 lenvOk 1 rfl rfl).1,
   (leave_connected_teardown s1 lenvOk 1 rfl rfl).2.2.2.1 rfl⟩

/-- Counterexample to claim C4: a failed playback request to the audio
node during `play` is a user-facing failure that produces no reply at all
— it is only written to stderr and the command returns `Ok`; the input was
a recognized `play` command, not an unrecognized one. -/
theorem play_queue_failure_silent_cex :
    (play s1 "song A" penvQueueFail).replies = [] ∧
    (play s1 "song A" penvQueueFail).logs = ["connection refused"] ∧
    (play s1 "song A" penvQueueFail).result = .ok := by
  refine ⟨rfl, rfl, rfl⟩

/-- Claim C4 amended: the failures of `play` other than the playback
request each produce a human-readable reply in the originating channel
(unknown channel, not connected, empty search results), but a failed
playback request to the audio node is silently dropped: it is logged to
stderr only, with no reply, and the command still returns `Ok`. -/
theorem play_reply_on_failures
    (s : BotState) (q : String) (env : PlayEnv) :
    (env.cacheChannelGuild = none →
      (play s q env).replies = ["Error finding channel info"]) ∧
    (∀ g, env.cacheChannelGuild = some g → hasHandler s g = false →
      (play s q env).replies
        = ["Use `!join` first, to connect the bot to your current voice channel."]) ∧
    (∀ g, env.cacheChannelGuild = some g → hasHandler s g = true →
      env.searchResult = .ok [] →
      (play s q env).replies = ["Could not find any video of the search query."]) ∧
    (∀ g t rest e, env.cacheChannelGuild = some g → hasHandler s g = true →
      env.searchResult = .ok (t :: rest) → env.playQueueResult = .error e →
      (play s q env).replies = [] ∧ (play s q env).logs = [e] ∧
      (play s q env).result = .ok) := by
  refine ⟨?_, ?_, ?_, ?_⟩
  · intro hc
    simp [play, hc]
  · intro g hc hh
    simp [play, hc, hh]
  · intro g hc hh hs
    simp [play, hc, hh, hs]
  · intro g t rest e hc hh hs hq
    simp [play, hc, hh, hs, hq]

/-- Witness for the amended C4: guild 1 connected, queue call fails. -/
theorem play_reply_on_failures_witness :
    (play s1 "other" penvQueueFail2).replies = [] ∧
    (play s1 "other" penvQueueFail2).logs = ["boom"] ∧
    (play s1 "other" penvQueueFail2).result = .ok :=
  (play_reply_on_failures s1 "other" penvQueueFail2).2.2.2
    1 trackA [] "boom" rfl rfl rfl rfl

/-- Counterexample to claim C7: guild 1 is already Connected (it has a
voice handler and a lavalink node), yet `join` still performs the voice
attach and creates the audio-node session again, replying "Joined 5",
instead of rejecting the command as invalid outside Disconnected. -/
theorem join_from_connected_cex :
    (join s1 jenvOk).calls = [.joinGateway 1 5, .createSession 1] ∧
    (join s1 jenvOk).replies = ["Joined 5"] ∧
    (join s1 jenvOk).result = .ok := by
  refine ⟨rfl, rfl, rfl⟩

/-- Claim C7 amended: `join` performs no state check at all — from a guild
that is already connected it re-issues the voice attach and re-creates the
audio-node session; because both maps are keyed per guild, this replaces
rather than duplicates the entries (the handler list is unchanged and
exactly one node entry for the guild remains), so no second session object
accumulates, but the transition is performed again rather than rejected. -/
theorem join_ignores_connected_state
    (s : BotState) (env : JoinEnv) (g : GuildId) (ch : ChannelId)
    (h1 : env.msgGuild = some g) (h2 : env.userVoiceChannel = some ch)
    (h3 : env.attachResult = .ok ()) (h4 : env.createResult = .ok ())
    (hg : hasHandler s g = true) :
    (join s env).calls = [.joinGateway g ch, .createSession g] ∧
    (join s env).result = .ok ∧
    (join s env).state.handlers = s.handlers ∧
    ((join s env).state.nodes.filter (fun p => p.1 == g)).length = 1 := by
  rw [hasHandler] at hg
  refine ⟨?_, ?_, ?_, ?_⟩
  · simp [join, h1, h2, h3, h4]
  · simp [join, h1, h2, h3, h4]
  · simp [join, h1, h2, h3, h4, handlersAdd_of_contains s.handlers g hg]
  · simp only [join, h1, h2, h3, h4]
    simp only [nodesInsert]
    rw [List.filter_cons]
    simp [filter_key_eq_after_filter_ne]

/-- Witness for the amended C7: guild 1 already connected and playing. -/
theorem join_ignores_connected_state_witness :
    (join s2 jenvOk).calls = [.joinGateway 1 5, .createSession 1] ∧
    (join s2 jenvOk).result = .ok ∧
    (join s2 jenvOk).state.handlers = s2.handlers ∧
    ((join s2 jenvOk).state.nodes.filter (fun p => p.1 == 1)).length = 1 :=
  join_ignores_connected_state s2 jenvOk 1 5 rfl rfl rfl rfl rfl

/-- Counterexample to claim C2: `now_playing` issued outside a guild
context (a direct message, where `msg.guild_id` is `None`) does not return
a result — it panics on the `unwrap`, contradicting "for every inbound
command in every state, including commands issued outside a guild context
or with a cache miss, the handler returns a result rather than
panicking". -/
theorem now_playing_dm_panics_cex :
    isPanic (now_playing s0 { msgGuildId := none }).result = true ∧
    isPanic (skip s0 { msgGuildId := none }).result = true ∧
    isPanic (join s0 jenvNoGuild).result = true := by
  refine ⟨rfl, rfl, rfl⟩

/-- Claim C2 amended: the handlers return a result (Ok or Err, never a
panic) only when invoked inside a guild context with the guild present in
the cache and with well-formed track metadata; outside a guild context or
on a cache miss they panic on an `unwrap` instead of returning. This
theorem proves the non-panicking half: under those context hypotheses,
none of join, leave, play, now_playing and skip panics. -/
theorem handlers_return_without_panic
    (s : BotState) (g : GuildId) (q : String)
    (jenv : JoinEnv) (lenv : LeaveEnv) (penv : PlayEnv)
    (hwf : stateWF s = true)
    (hj : jenv.msgGuild = some g) (hl : lenv.msgGuild = some g)
    (hp : penv.cacheChannelGuild = some g)
    (hps : ∀ ts t, penv.searchResult = .ok ts → t ∈ ts → trackWF t = true) :
    isPanic (join s jenv).result = false ∧
    isPanic (leave s lenv).result = false ∧
    isPanic (play s q penv).result = false ∧
    isPanic (now_playing s { msgGuildId := some g }).result = false ∧
    isPanic (skip s { msgGuildId := some g }).result = false := by
  refine ⟨?_, ?_, ?_, ?_, ?_⟩
  · cases hv : jenv.userVoiceChannel with
    | none => simp [join, hj, hv, isPanic]
    | some ch =>
      cases ha : jenv.attachResult with
      | error e => simp [join, hj, hv, ha, isPanic]
      | ok u =>
        cases hc : jenv.createResult with
        | error e => simp [join, hj, hv, ha, hc, isPanic]
        | ok u2 => simp [join, hj, hv, ha, hc, isPanic]
  · cases hhh : hasHandler s g with
    | false => simp [leave, hl, hhh, isPanic]
    | true =>
      cases hr : lenv.removeResult <;> cases hd : lenv.destroyResult <;>
        simp [leave, hl, hhh, hr, hd, isPanic]
  · cases hhh : hasHandler s g with
    | false => simp [play, hp, hhh, isPanic]
    | true =>
      cases hsr : penv.searchResult with
      | error e => simp [play, hp, hhh, hsr, isPanic]
      | ok ts =>
        cases ts with
        | nil => simp [play, hp, hhh, hsr, isPanic]
        | cons t rest =>
          cases hq : penv.playQueueResult with
          | error e => simp [play, hp, hhh, hsr, hq, isPanic]
          | ok u =>
            have hwt : trackWF t = true :=
              hps (t :: rest) t hsr (List.mem_cons_self t rest)
            cases hi : t.info with
            | none => simp [trackWF, hi] at hwt
            | some i => simp [play, hp, hhh, hsr, hq, hi, isPanic]
  · cases hn : nodesGet s.nodes g with
    | none => simp [now_playing, hn, isPanic]
    | some node =>
      cases hnp : node.now_playing with
      | none => simp [now_playing, hn, hnp, isPanic]
      | some t =>
        have hwn : nodeWF node = true := nodeWF_of_nodesGet s g node hwf hn
        rw [nodeWF, hnp, Bool.and_eq_true] at hwn
        cases hi : t.info with
        | none => simp [trackWF, hi] at hwn
        | some i => simp [now_playing, hn, hnp, hi, isPanic]
  · cases hn : nodesGet s.nodes g with
    | none => simp [skip, skipNode, hn, isPanic]
    | some node =>
      cases hnp : node.now_playing with
      | none => simp [skip, skipNode, hn, hnp, isPanic]
      | some t =>
        have hwn : nodeWF node = true := nodeWF_of_nodesGet s g node hwf hn
        rw [nodeWF, hnp, Bool.and_eq_true] at hwn
        cases hi : t.info with
        | none => simp [trackWF, hi] at hwn
        | some i => simp [skip, skipNode, hn, hnp, hi, isPanic]

/-- Witness for the amended C2: state with guild 1 playing track A, guild
context present, search returning a well-formed track. -/
theorem handlers_return_without_panic_witness :
    isPanic (join s2 jenvOk).result = false ∧
    isPanic (leave s2 lenvOk).result = false ∧
    isPanic (play s2 "song A" penvOk).result = false ∧
    isPanic (now_playing s2 { msgGuildId := some 1 }).result = false ∧
    isPanic (skip s2 { msgGuildId := some 1 }).result = false :=
  handlers_return_without_panic s2 1 "song A" jenvOk lenvOk penvOk rfl rfl rfl rfl
    (by
      intro ts t hts hmem
      have hts' : ([trackA] : List Track) = ts := by
        injection hts
      rw [← hts'] at hmem
      have : t = trackA := by simpa using hmem
      rw [this]
      rfl)
